import Mathlib

/-!
Verification of the hr_hiring authentication backend.

This file shallowly embeds the token-based session and authorization model
of the repository: the FastAPI handler bodies of `app/routers/auth.py`,
`app/routers/users.py`, `app/routers/admin.py` and the dependency functions
of `app/auth/dependencies.py`, over the ORM rows of
`app/models/database_models.py`.  The database is modelled as lists of rows
with explicit state passing; SQLAlchemy queries become `List.find?` /
`List.filter`; a handler that raises `HTTPException` before any `commit`
returns the error together with the unchanged database.  Timestamps are
naturals (seconds).  The token codec and credential hasher live in
`app/auth/security.py`, which is imported by the routers but is not part
of the source tree; the handlers below are therefore parametric in a
`SecurityOps` record of those collaborator functions, exactly as the
handlers only ever call them.
-/

deriving instance DecidableEq for Except

namespace HrHiring

/-- Closed role enumeration (`app/models/schemas.py`, `UserRole`). -/
inductive UserRole where
  | user
  | admin
  | hr
  | candidate
  deriving DecidableEq, Repr

/-- Permission row (`app/models/database_models.py`, `Permission`). -/
structure Permission where
  id : Nat
  name : String
  description : String
  deriving DecidableEq, Repr

/-- User row (`app/models/database_models.py`, `User`), with its
many-to-many permission set inlined. -/
structure User where
  id : Nat
  email : String
  name : String
  phone : Option String
  hashed_password : String
  role : UserRole
  is_active : Bool
  is_email_verified : Bool
  firebase_uid : Option String
  created_at : Nat
  updated_at : Nat
  last_login : Option Nat
  email_verification_token : Option String
  email_verification_expire : Option Nat
  reset_password_token : Option String
  reset_password_expire : Option Nat
  permissions : List Permission
  deriving DecidableEq, Repr

/-- Refresh-token session row (`app/models/database_models.py`, `UserSession`). -/
structure UserSession where
  id : Nat
  user_id : Nat
  refresh_token : String
  expires_at : Nat
  created_at : Nat
  ip_address : Option String
  user_agent : Option String
  deriving DecidableEq, Repr

/-- The relational store: one list of rows per table. -/
structure DB where
  users : List User
  permissions : List Permission
  sessions : List UserSession
  deriving DecidableEq, Repr

/-- Decoded JWT claim dictionary as read by the handlers: every claim is
retrieved with `.get`, so each may be absent. -/
structure TokenPayload where
  type : Option String
  sub : Option String
  user_id : Option Nat
  role : Option String
  deriving DecidableEq, Repr

/-- Claim dictionary passed to `create_access_token` by the routers. -/
structure AccessTokenData where
  sub : String
  role : UserRole
  user_id : Nat
  deriving DecidableEq, Repr

/-- Claim dictionary passed to `create_refresh_token` by the routers. -/
structure RefreshTokenData where
  sub : String
  user_id : Nat
  deriving DecidableEq, Repr

/-- The collaborator functions of `app/auth/security.py` (token codec and
credential hasher).  That module is imported by the routers but absent from
the source tree, so the handlers are parametric in this record. -/
structure SecurityOps where
  decode_token : String → Option TokenPayload
  create_access_token : AccessTokenData → String
  create_refresh_token : RefreshTokenData → String
  verify_password : String → String → Bool
  get_password_hash : String → String
  hash_token : String → String

/-- Error taxonomy of the raised `HTTPException`s. -/
inductive ApiError where
  | unauthenticated
  | forbidden
  | notFound
  | badRequest
  | serverFault
  deriving DecidableEq, Repr

/-- HTTP status code carried by each error kind. -/
def ApiError.statusCode : ApiError → Nat
  | .unauthenticated => 401
  | .forbidden => 403
  | .notFound => 404
  | .badRequest => 400
  | .serverFault => 500

/-- The token pair returned by signup/login (`app/models/schemas.py`, `Token`). -/
structure TokenPair where
  access_token : String
  refresh_token : String
  deriving DecidableEq, Repr

/-- `get_current_user` (`app/auth/dependencies.py` lines 13-42): decode the
presented token, require the `type` claim to be `access`, require a
subject claim, look the user up by email, and reject disabled accounts
with 403 instead of 401. -/
def get_current_user (sec : SecurityOps) (db : DB) (token : String) :
    Except ApiError User :=
  match sec.decode_token token with
  | none => .error .unauthenticated
  | some payload =>
    if payload.type ≠ some "access" then .error .unauthenticated
    else
      match payload.sub with
      | none => .error .unauthenticated
      | some email =>
        match db.users.find? (fun u => u.email == email) with
        | none => .error .unauthenticated
        | some user =>
          if !user.is_active then .error .forbidden
          else .ok user

/-- `require_permission` (`app/auth/dependencies.py` lines 70-84): permit
iff any one of the required permission names is among the names of the
user's granted permissions. -/
def require_permission (required_permissions : List String)
    (current_user : User) : Except ApiError User :=
  let user_permissions := current_user.permissions.map (fun p => p.name)
  if required_permissions.any (fun perm => user_permissions.contains perm) then
    .ok current_user
  else .error .forbidden

/-- `require_role` (`app/auth/dependencies.py` lines 58-68). -/
def require_role (allowed_roles : List UserRole)
    (current_user : User) : Except ApiError User :=
  if allowed_roles.contains current_user.role then .ok current_user
  else .error .forbidden

/-- The session validity query of the refresh endpoint
(`app/routers/auth.py` lines 344-348): a session matching the presented
refresh token and the token's `user_id` claim, whose `expires_at` is
strictly in the future. -/
def find_valid_session (db : DB) (refresh_token : String)
    (user_id : Option Nat) (now : Nat) : Option UserSession :=
  db.sessions.find? (fun s =>
    s.refresh_token == refresh_token && user_id == some s.user_id &&
      decide (now < s.expires_at))

/-- `refresh_token` endpoint (`app/routers/auth.py` lines 328-366): decode,
require `type = refresh`, look the session up, then mint a new access
token from the session's user row.  A dangling session foreign key would
crash the handler, surfacing as a server fault. -/
def refresh_token_endpoint (sec : SecurityOps) (now : Nat) (db : DB)
    (refresh_token : String) : Except ApiError String :=
  match sec.decode_token refresh_token with
  | none => .error .unauthenticated
  | some payload =>
    if payload.type ≠ some "refresh" then .error .unauthenticated
    else
      match find_valid_session db refresh_token payload.user_id now with
      | none => .error .unauthenticated
      | some session =>
        match db.users.find? (fun u => u.id == session.user_id) with
        | none => .error .serverFault
        | some user =>
          .ok (sec.create_access_token
            { sub := user.email, role := user.role, user_id := user.id })

/-- `logout` (`app/routers/auth.py` lines 368-377): delete every session
row belonging to the caller. -/
def logout (db : DB) (current_user : User) : DB :=
  { db with sessions := db.sessions.filter (fun s => !(s.user_id == current_user.id)) }

/-- `login` (`app/routers/auth.py` lines 123-172).  Returns the outcome
together with the post-state; the two 4xx raises happen before any commit,
so they return the database unchanged.  The `updated_at` bump on success
reflects the column's `onupdate` default. -/
def login (sec : SecurityOps) (now : Nat) (db : DB)
    (username password : String) (session_id : Nat)
    (ip_address user_agent : Option String) :
    Except ApiError TokenPair × DB :=
  match db.users.find? (fun u => u.email == username) with
  | none => (.error .unauthenticated, db)
  | some user =>
    if !(sec.verify_password password user.hashed_password) then
      (.error .unauthenticated, db)
    else if !user.is_active then (.error .forbidden, db)
    else
      let user1 := { user with last_login := some now, updated_at := now }
      let db1 := { db with
        users := db.users.map (fun x : User => if x.id == user.id then user1 else x) }
      let access_token := sec.create_access_token
        { sub := user.email, role := user.role, user_id := user.id }
      let refresh_tok := sec.create_refresh_token
        { sub := user.email, user_id := user.id }
      let session : UserSession := {
        id := session_id, user_id := user.id, refresh_token := refresh_tok,
        expires_at := now + 7 * 86400, created_at := now,
        ip_address := ip_address, user_agent := user_agent }
      (.ok { access_token := access_token, refresh_token := refresh_tok },
       { db1 with sessions := db1.sessions ++ [session] })

/-- Signup request body (`app/models/schemas.py`, `UserCreate`); its
`role` field is caller-supplied. -/
structure UserCreate where
  email : String
  name : String
  phone : Option String
  role : UserRole
  password : String
  deriving DecidableEq, Repr

/-- The schema-level default of `UserCreate.role`
(`app/models/schemas.py` line 23). -/
def signupDefaultRole : UserRole := UserRole.user

/-- The five seeded permissions of `init_default_permissions`
(`app/routers/auth.py` lines 24-40). -/
def default_permission_list : List (String × String) :=
  [("read", "Can read data"), ("write", "Can write data"),
   ("delete", "Can delete data"), ("manage_users", "Can manage users"),
   ("manage_roles", "Can manage roles")]

/-- One seeding step of `init_default_permissions`: insert the permission
row if none with its name exists yet (fresh autoincrement id). -/
def seed_permission (acc : DB) (pd : String × String) : DB :=
  match acc.permissions.find? (fun p => p.name == pd.1) with
  | some _ => acc
  | none => { acc with permissions := acc.permissions ++
      [{ id := acc.permissions.length + 1, name := pd.1, description := pd.2 }] }

/-- `init_default_permissions` (`app/routers/auth.py` lines 24-40): seed
each default permission if no row with its name exists yet. -/
def init_default_permissions (db : DB) : DB :=
  default_permission_list.foldl seed_permission db

/-- The role-determined default permission bundle, written identically in
`signup` (`app/routers/auth.py` lines 69-81) and `update_user_role`
(`app/routers/admin.py` lines 83-94): admin takes the whole catalog, hr
the catalog rows named read, write and manage_users, and any other role
the row named read when present, else nothing. -/
def default_bundle (catalog : List Permission) (role : UserRole) :
    List Permission :=
  if role = UserRole.admin then catalog
  else if role = UserRole.hr then
    catalog.filter (fun p => ["read", "write", "manage_users"].contains p.name)
  else
    match catalog.find? (fun p => p.name == "read") with
    | some permission => [permission]
    | none => []

/-- `signup` (`app/routers/auth.py` lines 42-121): seed permissions, reject
a duplicate email with 400, create the user with the caller-supplied role
and the role-determined default permission bundle, store a session, and
return both tokens.  Fresh row ids and the generated verification token
are parameters, as is the optional Firebase uid of the external
collaborator call. -/
def signup (sec : SecurityOps) (now : Nat) (db : DB) (user_data : UserCreate)
    (new_user_id session_id : Nat) (verification_token : String)
    (firebase_uid : Option String) : Except ApiError (DB × TokenPair) :=
  let db0 := init_default_permissions db
  match db0.users.find? (fun u => u.email == user_data.email) with
  | some _ => .error .badRequest
  | none =>
    let base : User := {
      id := new_user_id, email := user_data.email, name := user_data.name,
      phone := user_data.phone,
      hashed_password := sec.get_password_hash user_data.password,
      role := user_data.role, is_active := true, is_email_verified := false,
      firebase_uid := firebase_uid,
      created_at := now, updated_at := now, last_login := none,
      email_verification_token := some (sec.hash_token verification_token),
      email_verification_expire := some (now + 24 * 3600),
      reset_password_token := none, reset_password_expire := none,
      permissions := [] }
    let user := { base with
      permissions := default_bundle db0.permissions user_data.role }
    let access_token := sec.create_access_token
      { sub := user.email, role := user.role, user_id := user.id }
    let refresh_tok := sec.create_refresh_token
      { sub := user.email, user_id := user.id }
    let session : UserSession := {
      id := session_id, user_id := user.id, refresh_token := refresh_tok,
      expires_at := now + 7 * 86400, created_at := now,
      ip_address := none, user_agent := none }
    let db1 : DB := { db0 with
      users := db0.users ++ [user], sessions := db0.sessions ++ [session] }
    .ok (db1, { access_token := access_token, refresh_token := refresh_tok })

/-- `update_user_role` (`app/routers/admin.py` lines 65-98): set the role,
bump `updated_at`, and reset the permission set to the role-determined
default bundle.  Returns the post-state together with the updated row. -/
def update_user_role (now : Nat) (db : DB) (user_id : Nat) (role : UserRole) :
    Except ApiError (DB × User) :=
  match db.users.find? (fun u => u.id == user_id) with
  | none => .error .notFound
  | some user =>
    let user1 := { user with
      role := role, updated_at := now,
      permissions := default_bundle db.permissions role }
    .ok ({ db with
      users := db.users.map (fun x => if x.id == user_id then user1 else x) },
      user1)

/-- `delete_user` (`app/routers/admin.py` lines 148-172): reject
self-deletion with 400 before anything else; otherwise drop the target
row and, by ORM cascade, its sessions.  Returns the outcome with the
post-state; the raises happen before any mutation. -/
def delete_user (db : DB) (current_user : User) (user_id : Nat) :
    Except ApiError Unit × DB :=
  if current_user.id == user_id then (.error .badRequest, db)
  else
    match db.users.find? (fun u => u.id == user_id) with
    | none => (.error .notFound, db)
    | some user =>
      (.ok (), { db with
        users := db.users.filter (fun x => !(x.id == user.id)),
        sessions := db.sessions.filter (fun s => !(s.user_id == user.id)) })

/-- `delete_account` (`app/routers/users.py` lines 68-77): the self-profile
delete route unconditionally deletes the caller's row (sessions cascade). -/
def delete_account (db : DB) (current_user : User) : DB :=
  { db with
    users := db.users.filter (fun x => !(x.id == current_user.id)),
    sessions := db.sessions.filter (fun s => !(s.user_id == current_user.id)) }

/-- `change_password` (`app/routers/users.py` lines 48-66): verify the
current password, then overwrite the hash and bump `updated_at`. -/
def change_password (sec : SecurityOps) (now : Nat) (db : DB)
    (current_user : User) (current_password new_password : String) :
    Except ApiError DB :=
  if !(sec.verify_password current_password current_user.hashed_password) then
    .error .badRequest
  else
    let user1 := { current_user with
      hashed_password := sec.get_password_hash new_password, updated_at := now }
    .ok { db with
      users := db.users.map (fun x => if x.id == current_user.id then user1 else x) }

/-- The reset-token lookup predicate of `reset_password`
(`app/routers/auth.py` lines 309-312): hashed token matches and the expiry
is strictly in the future (a SQL comparison against NULL never matches). -/
def reset_token_matches (hashed_token : String) (now : Nat) (u : User) : Bool :=
  u.reset_password_token == some hashed_token &&
    (match u.reset_password_expire with
     | some e => decide (now < e)
     | none => false)

/-- `reset_password` (`app/routers/auth.py` lines 301-326): find the user
by hashed reset token, then overwrite the hash and clear the reset-token
fields.  The `updated_at` bump reflects the column's `onupdate` default. -/
def reset_password (sec : SecurityOps) (now : Nat) (db : DB)
    (token new_password : String) : Except ApiError DB :=
  let hashed_token := sec.hash_token token
  match db.users.find? (reset_token_matches hashed_token now) with
  | none => .error .badRequest
  | some user =>
    let user1 := { user with
      hashed_password := sec.get_password_hash new_password,
      reset_password_token := none, reset_password_expire := none,
      updated_at := now }
    .ok { db with
      users := db.users.map (fun x => if x.id == user.id then user1 else x) }

/-! Concrete fixtures used to exercise the handlers on closed inputs. -/

/-- A concrete codec/hasher instantiating the `SecurityOps` collaborator. -/
def secW : SecurityOps where
  decode_token := fun t =>
    if t = "tok-refresh" then
      some { type := some "refresh", sub := some "amy@x.com", user_id := some 1, role := none }
    else if t = "tok-nosub" then
      some { type := some "access", sub := none, user_id := some 1, role := none }
    else if t = "tok-ghost" then
      some { type := some "access", sub := some "ghost@x.com", user_id := some 9, role := none }
    else if t = "tok-amy" then
      some { type := some "access", sub := some "amy@x.com", user_id := some 1, role := some "user" }
    else if t = "tok-bob" then
      some { type := some "access", sub := some "bob@x.com", user_id := some 2, role := some "hr" }
    else if t = "ref:bob@x.com" then
      some { type := some "refresh", sub := some "bob@x.com", user_id := some 2, role := none }
    else if t = "ref:amy@x.com" then
      some { type := some "refresh", sub := some "amy@x.com", user_id := some 1, role := none }
    else none
  create_access_token := fun d => "acc:" ++ d.sub
  create_refresh_token := fun d => "ref:" ++ d.sub
  verify_password := fun p h => h == "H:" ++ p
  get_password_hash := fun p => "H:" ++ p
  hash_token := fun t => "T:" ++ t

/-- Shorthand for a user row with the storage-level defaults. -/
def mkUser (id : Nat) (email : String) (role : UserRole) (is_active : Bool)
    (permissions : List Permission) : User where
  id := id
  email := email
  name := email
  phone := none
  hashed_password := "H:Secret1"
  role := role
  is_active := is_active
  is_email_verified := false
  firebase_uid := none
  created_at := 0
  updated_at := 0
  last_login := none
  email_verification_token := none
  email_verification_expire := none
  reset_password_token := none
  reset_password_expire := none
  permissions := permissions

def permRead : Permission := { id := 1, name := "read", description := "Can read data" }

def permWrite : Permission := { id := 2, name := "write", description := "Can write data" }

/-- Amy: an active standard user holding session 1. -/
def amyW : User := mkUser 1 "amy@x.com" UserRole.user true [permRead]

/-- Bob: a deactivated hr user holding session 2. -/
def bobW : User := mkUser 2 "bob@x.com" UserRole.hr false [permRead, permWrite]

def dbW : DB where
  users := [amyW, bobW]
  permissions := [permRead, permWrite]
  sessions := [
    { id := 1, user_id := 1, refresh_token := "ref:amy@x.com", expires_at := 1000,
      created_at := 0, ip_address := none, user_agent := none },
    { id := 2, user_id := 2, refresh_token := "ref:bob@x.com", expires_at := 1000,
      created_at := 0, ip_address := none, user_agent := none }]

/-! Claims. -/

/-- Claim C1: for every presented token, `get_current_user` fails with
Unauthenticated (401) when the token fails to decode, when its `type`
claim is not `access`, when its subject claim is missing, or when no user
exists with the subject email; and when the user is found but `is_active`
is false, it fails with Forbidden (403), a failure kind distinct from
Unauthenticated. -/
theorem getCurrentUser_failure_taxonomy (sec : SecurityOps) (db : DB)
    (token : String) :
    (sec.decode_token token = none →
      get_current_user sec db token = .error .unauthenticated) ∧
    (∀ p, sec.decode_token token = some p → p.type ≠ some "access" →
      get_current_user sec db token = .error .unauthenticated) ∧
    (∀ p, sec.decode_token token = some p → p.sub = none →
      get_current_user sec db token = .error .unauthenticated) ∧
    (∀ p e, sec.decode_token token = some p → p.sub = some e →
      db.users.find? (fun u => u.email == e) = none →
      get_current_user sec db token = .error .unauthenticated) ∧
    (∀ p e u, sec.decode_token token = some p → p.type = some "access" →
      p.sub = some e → db.users.find? (fun x => x.email == e) = some u →
      u.is_active = false →
      get_current_user sec db token = .error .forbidden) ∧
    (ApiError.forbidden ≠ ApiError.unauthenticated ∧
      ApiError.statusCode .forbidden = 403 ∧
      ApiError.statusCode .unauthenticated = 401) := by
  refine ⟨?_, ?_, ?_, ?_, ?_, by decide, rfl, rfl⟩
  · intro h
    simp [get_current_user, h]
  · intro p hp ht
    simp only [get_current_user, hp]
    rw [if_pos ht]
  · intro p hp hsub
    simp only [get_current_user, hp]
    by_cases hty : p.type = some "access"
    · rw [if_neg (by simp [hty]), hsub]
    · rw [if_pos hty]
  · intro p e hp hsub hfind
    simp only [get_current_user, hp]
    by_cases hty : p.type = some "access"
    · rw [if_neg (by simp [hty]), hsub]
      simp only [hfind]
    · rw [if_pos hty]
  · intro p e u hp hty hsub hfind hact
    simp only [get_current_user, hp]
    rw [if_neg (by simp [hty]), hsub]
    simp only [hfind, hact]
    rfl

/-- Closed instances of claim C1: each failure branch exercised on the
concrete fixtures. -/
theorem getCurrentUser_failure_taxonomy_witness :
    get_current_user secW dbW "garbage" = .error .unauthenticated ∧
    get_current_user secW dbW "tok-refresh" = .error .unauthenticated ∧
    get_current_user secW dbW "tok-nosub" = .error .unauthenticated ∧
    get_current_user secW dbW "tok-ghost" = .error .unauthenticated ∧
    get_current_user secW dbW "tok-bob" = .error .forbidden :=
  ⟨(getCurrentUser_failure_taxonomy secW dbW "garbage").1 (by decide),
   (getCurrentUser_failure_taxonomy secW dbW "tok-refresh").2.1
     { type := some "refresh", sub := some "amy@x.com", user_id := some 1, role := none }
     (by decide) (by decide),
   (getCurrentUser_failure_taxonomy secW dbW "tok-nosub").2.2.1
     { type := some "access", sub := none, user_id := some 1, role := none }
     (by decide) (by decide),
   (getCurrentUser_failure_taxonomy secW dbW "tok-ghost").2.2.2.1
     { type := some "access", sub := some "ghost@x.com", user_id := some 9, role := none }
     "ghost@x.com" (by decide) (by decide) (by decide),
   (getCurrentUser_failure_taxonomy secW dbW "tok-bob").2.2.2.2.1
     { type := some "access", sub := some "bob@x.com", user_id := some 2, role := some "hr" }
     "bob@x.com" bobW (by decide) (by decide) (by decide) (by decide) (by decide)⟩

/-- Claim C2: for every token that decodes successfully, the access-token
check rejects it with Unauthenticated unless its `type` claim equals
`access`, and the refresh endpoint rejects it with Unauthenticated unless
its `type` claim equals `refresh`; in particular a refresh token never
passes the access-token check and an access token never passes the
refresh check. -/
theorem token_type_claim_checks (sec : SecurityOps) (db : DB) (now : Nat)
    (token : String) (p : TokenPayload)
    (hdec : sec.decode_token token = some p) :
    (p.type ≠ some "access" →
      get_current_user sec db token = .error .unauthenticated) ∧
    (p.type ≠ some "refresh" →
      refresh_token_endpoint sec now db token = .error .unauthenticated) ∧
    (p.type = some "refresh" →
      get_current_user sec db token = .error .unauthenticated) ∧
    (p.type = some "access" →
      refresh_token_endpoint sec now db token = .error .unauthenticated) := by
  have haccess : p.type ≠ some "access" →
      get_current_user sec db token = .error .unauthenticated := by
    intro ht
    simp only [get_current_user, hdec]
    rw [if_pos ht]
  have hrefresh : p.type ≠ some "refresh" →
      refresh_token_endpoint sec now db token = .error .unauthenticated := by
    intro ht
    simp only [refresh_token_endpoint, hdec]
    rw [if_pos ht]
  refine ⟨haccess, hrefresh, ?_, ?_⟩
  · intro ht
    exact haccess (by simp [ht])
  · intro ht
    exact hrefresh (by simp [ht])

/-- Closed instances of claim C2: a refresh token fails the access-token
check and an access token fails the refresh endpoint. -/
theorem token_type_claim_checks_witness :
    get_current_user secW dbW "tok-refresh" = .error .unauthenticated ∧
    refresh_token_endpoint secW 5 dbW "tok-amy" = .error .unauthenticated :=
  ⟨(token_type_claim_checks secW dbW 5 "tok-refresh"
      { type := some "refresh", sub := some "amy@x.com", user_id := some 1, role := none }
      (by decide)).2.2.1 (by decide),
   (token_type_claim_checks secW dbW 5 "tok-amy"
      { type := some "access", sub := some "amy@x.com", user_id := some 1, role := some "user" }
      (by decide)).2.2.2 (by decide)⟩

/-- Claim C3: for every existing user and every role value, the
administrative role-change operation sets the user's role to that value
and resets the permission set to the role-determined default bundle:
admin receives the full permission catalog, hr receives exactly the
catalog permissions named read, write and manage_users, and every other
role receives exactly the permission named read, or the empty set if no
permission named read exists in the catalog. -/
theorem updateUserRole_sets_role_and_bundle
    (now : Nat) (db : DB) (user_id : Nat) (role : UserRole) (u : User)
    (hfind : db.users.find? (fun x => x.id == user_id) = some u) :
    ∃ db1 u1, update_user_role now db user_id role = .ok (db1, u1) ∧
      u1.role = role ∧
      db1.users = db.users.map (fun x => if x.id == user_id then u1 else x) ∧
      db1.permissions = db.permissions ∧
      (role = UserRole.admin → u1.permissions = db.permissions) ∧
      (role = UserRole.hr →
        ∀ p : Permission, p ∈ u1.permissions ↔
          p ∈ db.permissions ∧
            (p.name = "read" ∨ p.name = "write" ∨ p.name = "manage_users")) ∧
      (role ≠ UserRole.admin → role ≠ UserRole.hr →
        (∃ perm, u1.permissions = [perm] ∧ perm.name = "read" ∧
          perm ∈ db.permissions) ∨
        (u1.permissions = [] ∧ ∀ perm ∈ db.permissions, perm.name ≠ "read")) := by
  simp only [update_user_role, hfind]
  refine ⟨_, _, rfl, ?_, ?_, ?_, ?_, ?_, ?_⟩
  · rfl
  · rfl
  · rfl
  · intro hrole
    subst hrole
    simp [default_bundle]
  · intro hrole p
    subst hrole
    simp [default_bundle, List.mem_filter, List.elem_iff]
  · intro hna hnh
    show (∃ perm, default_bundle db.permissions role = [perm] ∧
        perm.name = "read" ∧ perm ∈ db.permissions) ∨
      (default_bundle db.permissions role = [] ∧
        ∀ perm ∈ db.permissions, perm.name ≠ "read")
    unfold default_bundle
    rw [if_neg hna, if_neg hnh]
    cases hread : db.permissions.find? (fun p => p.name == "read") with
    | some perm =>
      left
      refine ⟨perm, rfl, ?_, List.mem_of_find?_eq_some hread⟩
      have := List.find?_some hread
      simpa using this
    | none =>
      right
      refine ⟨rfl, ?_⟩
      intro perm hmem
      have := List.find?_eq_none.mp hread perm hmem
      simpa using this

/-- Closed instance of claim C3: changing Amy's role to hr on the
concrete fixture database. -/
theorem updateUserRole_sets_role_and_bundle_witness :
    ∃ db1 u1, update_user_role 7 dbW 1 UserRole.hr = .ok (db1, u1) ∧
      u1.role = UserRole.hr ∧
      db1.users = dbW.users.map (fun x => if x.id == 1 then u1 else x) ∧
      db1.permissions = dbW.permissions ∧
      (UserRole.hr = UserRole.admin → u1.permissions = dbW.permissions) ∧
      (UserRole.hr = UserRole.hr →
        ∀ p : Permission, p ∈ u1.permissions ↔
          p ∈ dbW.permissions ∧
            (p.name = "read" ∨ p.name = "write" ∨ p.name = "manage_users")) ∧
      (UserRole.hr ≠ UserRole.admin → UserRole.hr ≠ UserRole.hr →
        (∃ perm, u1.permissions = [perm] ∧ perm.name = "read" ∧
          perm ∈ dbW.permissions) ∨
        (u1.permissions = [] ∧ ∀ perm ∈ dbW.permissions, perm.name ≠ "read")) :=
  updateUserRole_sets_role_and_bundle 7 dbW 1 UserRole.hr amyW (by decide)

/-- Claim C4: for every resolved active user and every non-empty list of
required permission names, the permission gate permits the request iff at
least one required name is among the user's granted permission names
(logical OR), and fails with Forbidden (403) otherwise. -/
theorem requirePermission_any_of (required_permissions : List String)
    (current_user : User)
    (_hactive : current_user.is_active = true)
    (_hne : required_permissions ≠ []) :
    (require_permission required_permissions current_user = .ok current_user ↔
      ∃ perm ∈ required_permissions,
        perm ∈ current_user.permissions.map (fun p => p.name)) ∧
    ((¬ ∃ perm ∈ required_permissions,
        perm ∈ current_user.permissions.map (fun p => p.name)) →
      require_permission required_permissions current_user =
        .error .forbidden) ∧
    ApiError.statusCode .forbidden = 403 := by
  have hcond : (required_permissions.any
      (fun perm => (current_user.permissions.map (fun p => p.name)).contains perm)) = true ↔
      ∃ perm ∈ required_permissions,
        perm ∈ current_user.permissions.map (fun p => p.name) := by
    simp [List.any_eq_true, List.elem_iff]
  refine ⟨?_, ?_, rfl⟩
  · constructor
    · intro hok
      by_contra hno
      have : ¬ (required_permissions.any
          (fun perm => (current_user.permissions.map (fun p => p.name)).contains perm)) = true := by
        simpa [hcond] using hno
      simp only [require_permission, if_neg this] at hok
      exact absurd hok (by simp)
    · intro hex
      simp only [require_permission, if_pos (hcond.mpr hex)]
  · intro hno
    have : ¬ (required_permissions.any
        (fun perm => (current_user.permissions.map (fun p => p.name)).contains perm)) = true := by
      simpa [hcond] using hno
    simp only [require_permission, if_neg this]

/-- Closed instances of claim C4: Amy, who holds only read, passes a gate
listing read among alternatives and fails a gate requiring only
manage_roles. -/
theorem requirePermission_any_of_witness :
    require_permission ["manage_users", "read"] amyW = .ok amyW ∧
    require_permission ["manage_roles"] amyW = .error .forbidden :=
  ⟨((requirePermission_any_of ["manage_users", "read"] amyW (by decide)
      (by decide)).1).mpr ⟨"read", by decide, by decide⟩,
   ((requirePermission_any_of ["manage_roles"] amyW (by decide)
      (by decide)).2.1) (by decide)⟩

/-- Claim C5: logout deletes every session belonging to the caller, so
afterwards every refresh token previously issued to that user — including
unexpired ones — fails the `find_valid` lookup used by the refresh
endpoint; sessions of other users are untouched. -/
theorem logout_revokes_all_sessions (db : DB) (current_user : User) :
    (∀ s ∈ (logout db current_user).sessions, s.user_id ≠ current_user.id) ∧
    (∀ refresh_tok now,
      find_valid_session (logout db current_user) refresh_tok
        (some current_user.id) now = none) ∧
    (∀ s ∈ db.sessions, s.user_id ≠ current_user.id →
      s ∈ (logout db current_user).sessions) := by
  refine ⟨?_, ?_, ?_⟩
  · intro s hs
    simp [logout, List.mem_filter] at hs
    exact hs.2
  · intro rt now
    simp only [find_valid_session]
    apply List.find?_eq_none.mpr
    intro s hs
    have hne : s.user_id ≠ current_user.id := by
      simp [logout, List.mem_filter] at hs
      exact hs.2
    simp [Ne.symm hne]
  · intro s hs hne
    simp [logout, List.mem_filter, hs, hne]

/-- Closed instance of claim C5: Amy's refresh token passes `find_valid`
before logout and fails it afterwards, well before its expiry. -/
theorem logout_revokes_all_sessions_witness :
    find_valid_session dbW "ref:amy@x.com" (some amyW.id) 5 =
      some { id := 1, user_id := 1, refresh_token := "ref:amy@x.com",
             expires_at := 1000, created_at := 0, ip_address := none,
             user_agent := none } ∧
    find_valid_session (logout dbW amyW) "ref:amy@x.com" (some amyW.id) 5 =
      none :=
  ⟨by decide, (logout_revokes_all_sessions dbW amyW).2.1 "ref:amy@x.com" 5⟩

/-- Claim C6: a login request whose email matches no user, or whose
password fails verification against the stored hash, fails with
Unauthenticated (401) and returns the database unchanged — no session row
created, no last_login update. -/
theorem login_bad_credentials_no_side_effects
    (sec : SecurityOps) (now : Nat) (db : DB) (username password : String)
    (session_id : Nat) (ip_address user_agent : Option String)
    (hbad : db.users.find? (fun u => u.email == username) = none ∨
      ∃ u, db.users.find? (fun x => x.email == username) = some u ∧
        sec.verify_password password u.hashed_password = false) :
    login sec now db username password session_id ip_address user_agent =
      (.error .unauthenticated, db) ∧
    ApiError.statusCode .unauthenticated = 401 := by
  refine ⟨?_, rfl⟩
  rcases hbad with h | ⟨u, hu, hv⟩
  · simp [login, h]
  · simp [login, hu, hv]

/-- Closed instances of claim C6: unknown email, and Amy with a wrong
password; both leave the fixture database exactly as it was. -/
theorem login_bad_credentials_no_side_effects_witness :
    login secW 50 dbW "nobody@x.com" "Secret1" 3 none none =
      (.error .unauthenticated, dbW) ∧
    login secW 50 dbW "amy@x.com" "Wrong1" 3 none none =
      (.error .unauthenticated, dbW) :=
  ⟨(login_bad_credentials_no_side_effects secW 50 dbW "nobody@x.com" "Secret1"
      3 none none (Or.inl (by decide))).1,
   (login_bad_credentials_no_side_effects secW 50 dbW "amy@x.com" "Wrong1"
      3 none none (Or.inr ⟨amyW, by decide, by decide⟩)).1⟩

/-- Carol: an administrative user who is the sole user of `dbC7`. -/
def carolW : User := mkUser 3 "carol@x.com" UserRole.admin true [permRead]

def dbC7 : DB where
  users := [carolW]
  permissions := [permRead]
  sessions := [
    { id := 9, user_id := 3, refresh_token := "ref:carol@x.com",
      expires_at := 1000, created_at := 0, ip_address := none,
      user_agent := none }]

/-- Counterexample to claim C7 as stated: the self-profile delete route
(`delete_account`, `app/routers/users.py` lines 68-77) does not reject an
administrative caller deleting their own account — it deletes the user
row (and, by cascade, their sessions) and raises no Validation error. -/
theorem delete_account_allows_self_deletion :
    carolW.role = UserRole.admin ∧
    dbC7.users = [carolW] ∧
    (delete_account dbC7 carolW).users = [] ∧
    (delete_account dbC7 carolW).sessions = [] := by
  decide

/-- Claim C7 amended: a delete-user request on the administrative route
whose target id equals the caller's id is rejected as a Validation error
(400) with the database unchanged, so no user is deleted; the
self-profile delete route, by contrast, deletes the caller's account
without rejection. -/
theorem self_deletion_rejected_on_admin_route
    (db : DB) (current_user : User) (user_id : Nat)
    (hself : current_user.id = user_id) :
    delete_user db current_user user_id = (.error .badRequest, db) ∧
    ApiError.statusCode .badRequest = 400 ∧
    (∀ x ∈ (delete_account db current_user).users,
      x.id ≠ current_user.id) := by
  refine ⟨?_, rfl, ?_⟩
  · simp [delete_user, hself]
  · intro x hx
    simp [delete_account, List.mem_filter] at hx
    exact hx.2

/-- Closed instance of the amended claim C7: Carol targeting her own id on
the admin route is rejected with 400 and nothing changes; the self-profile
route removes her row. -/
theorem self_deletion_rejected_on_admin_route_witness :
    delete_user dbC7 carolW 3 = (.error .badRequest, dbC7) ∧
    ApiError.statusCode .badRequest = 400 ∧
    (∀ x ∈ (delete_account dbC7 carolW).users, x.id ≠ carolW.id) :=
  self_deletion_rejected_on_admin_route dbC7 carolW 3 (by decide)

/-- Claim C8: a user whose is_active flag is false but who holds an
unexpired, unrevoked refresh token with a stored session row still gets a
fresh access token carrying their role from the refresh endpoint: the
refresh path performs no is_active check. -/
theorem refresh_ignores_is_active
    (sec : SecurityOps) (now : Nat) (db : DB) (tok : String)
    (p : TokenPayload) (s : UserSession) (u : User)
    (hdec : sec.decode_token tok = some p)
    (htype : p.type = some "refresh")
    (hsess : find_valid_session db tok p.user_id now = some s)
    (huser : db.users.find? (fun x => x.id == s.user_id) = some u)
    (_hinactive : u.is_active = false) :
    refresh_token_endpoint sec now db tok =
      .ok (sec.create_access_token
        { sub := u.email, role := u.role, user_id := u.id }) := by
  simp only [refresh_token_endpoint, hdec]
  rw [if_neg (by simp [htype])]
  simp only [hsess, huser]

/-- Closed instance of claim C8: deactivated Bob still refreshes. -/
theorem refresh_ignores_is_active_witness :
    bobW.is_active = false ∧
    refresh_token_endpoint secW 5 dbW "ref:bob@x.com" =
      .ok (secW.create_access_token
        { sub := bobW.email, role := bobW.role, user_id := bobW.id }) :=
  ⟨by decide,
   refresh_ignores_is_active secW 5 dbW "ref:bob@x.com"
     { type := some "refresh", sub := some "bob@x.com", user_id := some 2,
       role := none }
     { id := 2, user_id := 2, refresh_token := "ref:bob@x.com",
       expires_at := 1000, created_at := 0, ip_address := none,
       user_agent := none }
     bobW (by decide) (by decide) (by decide) (by decide) (by decide)⟩

/-- A seeding step never touches the users or sessions tables. -/
theorem seed_permission_frame (acc : DB) (pd : String × String) :
    (seed_permission acc pd).users = acc.users ∧
    (seed_permission acc pd).sessions = acc.sessions := by
  unfold seed_permission
  cases acc.permissions.find? (fun p => p.name == pd.1) <;> exact ⟨rfl, rfl⟩

/-- Folding seeding steps never touches the users or sessions tables. -/
theorem foldl_seed_permission_frame (l : List (String × String)) (acc : DB) :
    (l.foldl seed_permission acc).users = acc.users ∧
    (l.foldl seed_permission acc).sessions = acc.sessions := by
  induction l generalizing acc with
  | nil => exact ⟨rfl, rfl⟩
  | cons hd tl ih =>
    rw [List.foldl_cons]
    have h1 := seed_permission_frame acc hd
    have h2 := ih (seed_permission acc hd)
    exact ⟨h2.1.trans h1.1, h2.2.trans h1.2⟩

/-- `init_default_permissions` only seeds the permission catalog. -/
theorem init_default_permissions_frame (db : DB) :
    (init_default_permissions db).users = db.users ∧
    (init_default_permissions db).sessions = db.sessions :=
  foldl_seed_permission_frame default_permission_list db

/-- The admin bundle is the whole catalog. -/
theorem default_bundle_admin (catalog : List Permission) :
    default_bundle catalog UserRole.admin = catalog := by
  simp [default_bundle]

/-- Claim C9: signup takes no caller identity and honours the
caller-supplied role field (whose schema default is user): with role
admin and a fresh email it creates a user whose role is admin and whose
permission set is the full seeded permission catalog. -/
theorem signup_accepts_caller_supplied_admin_role
    (sec : SecurityOps) (now : Nat) (db : DB) (user_data : UserCreate)
    (new_user_id session_id : Nat) (verification_token : String)
    (firebase_uid : Option String)
    (hrole : user_data.role = UserRole.admin)
    (hfresh : db.users.find? (fun u => u.email == user_data.email) = none) :
    signupDefaultRole = UserRole.user ∧
    ∃ db1 pair u,
      signup sec now db user_data new_user_id session_id verification_token
        firebase_uid = .ok (db1, pair) ∧
      db1.users = db.users ++ [u] ∧
      u.email = user_data.email ∧
      u.role = UserRole.admin ∧
      u.permissions = (init_default_permissions db).permissions ∧
      db1.permissions = (init_default_permissions db).permissions := by
  have husers := (init_default_permissions_frame db).1
  refine ⟨rfl, ?_⟩
  simp only [signup, husers, hfresh, hrole, default_bundle_admin]
  exact ⟨_, _, _, rfl, rfl, rfl, rfl, rfl, rfl⟩

/-- Closed instance of claim C9: an unauthenticated admin-role signup on
an empty database yields an admin user holding all five seeded
permissions. -/
theorem signup_accepts_caller_supplied_admin_role_witness :
    signupDefaultRole = UserRole.user ∧
    ∃ db1 pair u,
      signup secW 0 { users := [], permissions := [], sessions := [] }
        { email := "eve@x.com", name := "Eve", phone := none,
          role := UserRole.admin, password := "Abc123" } 1 1 "vt" none
        = .ok (db1, pair) ∧
      db1.users = ({ users := [], permissions := [], sessions := [] } : DB).users ++ [u] ∧
      u.email = "eve@x.com" ∧
      u.role = UserRole.admin ∧
      u.permissions = (init_default_permissions
        { users := [], permissions := [], sessions := [] }).permissions ∧
      db1.permissions = (init_default_permissions
        { users := [], permissions := [], sessions := [] }).permissions :=
  signup_accepts_caller_supplied_admin_role secW 0
    { users := [], permissions := [], sessions := [] }
    { email := "eve@x.com", name := "Eve", phone := none,
      role := UserRole.admin, password := "Abc123" }
    1 1 "vt" none (by decide) (by decide)

/-- Dana: an active user with a pending password-reset token, used to
exercise the password operations. -/
def danaW : User := { mkUser 4 "dana@x.com" UserRole.user true [permRead] with
  reset_password_token := some "T:rst", reset_password_expire := some 100 }

def dbC10 : DB where
  users := [danaW]
  permissions := [permRead]
  sessions := [
    { id := 4, user_id := 4, refresh_token := "ref:dana@x.com",
      expires_at := 1000, created_at := 0, ip_address := none,
      user_agent := none }]

/-- Dana's row after the change-password call. -/
def dana1W : User := { danaW with
  hashed_password := "H:Newpw1", updated_at := 50 }

/-- Dana's row after the reset-password call. -/
def dana2W : User := { danaW with
  hashed_password := "H:Newpw2", reset_password_token := none,
  reset_password_expire := none, updated_at := 50 }

/-- Post-state of Dana's change-password call on `dbC10`. -/
def db1W : DB := { dbC10 with
  users := dbC10.users.map (fun x => if x.id == danaW.id then dana1W else x) }

/-- Post-state of Dana's reset-password call on `dbC10`. -/
def db2W : DB := { dbC10 with
  users := dbC10.users.map (fun x => if x.id == danaW.id then dana2W else x) }

/-- Claim C10: a successful change-password or reset-password modifies
only the target user's hashed_password, reset-token fields and updated_at
timestamp, and deletes no session rows: the sessions table is unchanged,
so every previously issued refresh token yields the same `find_valid`
result as before. -/
theorem password_ops_preserve_sessions
    (sec : SecurityOps) (now : Nat) (db : DB) (current_user : User)
    (current_password new_password : String)
    (reset_tok reset_new_password : String) :
    (∀ db1, change_password sec now db current_user current_password
        new_password = .ok db1 →
      db1.sessions = db.sessions ∧
      db1.permissions = db.permissions ∧
      db1.users = db.users.map (fun x => if x.id == current_user.id then
        { current_user with
          hashed_password := sec.get_password_hash new_password,
          updated_at := now } else x) ∧
      (∀ rt uid t, find_valid_session db1 rt uid t =
        find_valid_session db rt uid t)) ∧
    (∀ db2, reset_password sec now db reset_tok reset_new_password
        = .ok db2 →
      db2.sessions = db.sessions ∧
      db2.permissions = db.permissions ∧
      (∃ u, db.users.find?
          (reset_token_matches (sec.hash_token reset_tok) now) = some u ∧
        db2.users = db.users.map (fun x => if x.id == u.id then
          { u with
            hashed_password := sec.get_password_hash reset_new_password,
            reset_password_token := none, reset_password_expire := none,
            updated_at := now } else x)) ∧
      (∀ rt uid t, find_valid_session db2 rt uid t =
        find_valid_session db rt uid t)) := by
  constructor
  · intro db1 h1
    have hdb1 : db1 = { db with
        users := db.users.map (fun x => if x.id == current_user.id then
          { current_user with
            hashed_password := sec.get_password_hash new_password,
            updated_at := now } else x) } := by
      unfold change_password at h1
      cases hv : sec.verify_password current_password
          current_user.hashed_password with
      | true =>
        rw [hv] at h1
        simp only [Bool.not_true] at h1
        rw [if_neg Bool.false_ne_true] at h1
        exact (Except.ok.inj h1).symm
      | false =>
        rw [hv] at h1
        simp only [Bool.not_false, if_true] at h1
        exact Except.noConfusion h1
    subst hdb1
    exact ⟨rfl, rfl, rfl, fun rt uid t => rfl⟩
  · intro db2 h2
    obtain ⟨u, hu, hdb2⟩ : ∃ u, db.users.find?
        (reset_token_matches (sec.hash_token reset_tok) now) = some u ∧
        db2 = { db with
          users := db.users.map (fun x => if x.id == u.id then
            { u with
              hashed_password := sec.get_password_hash reset_new_password,
              reset_password_token := none, reset_password_expire := none,
              updated_at := now } else x) } := by
      cases hfind : db.users.find?
          (reset_token_matches (sec.hash_token reset_tok) now) with
      | none =>
        simp only [reset_password, hfind] at h2
        exact Except.noConfusion h2
      | some u =>
        refine ⟨u, rfl, ?_⟩
        simp only [reset_password, hfind] at h2
        exact (Except.ok.inj h2).symm
    subst hdb2
    exact ⟨rfl, rfl, ⟨u, hu, rfl⟩, fun rt uid t => rfl⟩

/-- Closed instance of claim C10: Dana changes and resets her password;
her refresh session is untouched and still found valid. -/
theorem password_ops_preserve_sessions_witness :
    change_password secW 50 dbC10 danaW "Secret1" "Newpw1" = .ok db1W ∧
    reset_password secW 50 dbC10 "rst" "Newpw2" = .ok db2W ∧
    db1W.sessions = dbC10.sessions ∧
    db2W.sessions = dbC10.sessions ∧
    find_valid_session db1W "ref:dana@x.com" (some 4) 60 =
      find_valid_session dbC10 "ref:dana@x.com" (some 4) 60 ∧
    find_valid_session db2W "ref:dana@x.com" (some 4) 60 =
      find_valid_session dbC10 "ref:dana@x.com" (some 4) 60 :=
  have h := password_ops_preserve_sessions secW 50 dbC10 danaW
    "Secret1" "Newpw1" "rst" "Newpw2"
  have h1 := h.1 db1W (by decide)
  have h2 := h.2 db2W (by decide)
  ⟨by decide, by decide, h1.1, h2.1,
   h1.2.2.2 "ref:dana@x.com" (some 4) 60,
   h2.2.2.2 "ref:dana@x.com" (some 4) 60⟩

end HrHiring
